import Mathlib

/-!
Shallow embedding of `src/main.py` (RefFLEXITY-CLI): the streamed
retrieval-and-generation pipeline of a local AI web-search tool.

Python strings are modelled as `List Char` (a Python `str` is a sequence of
code points).  The line-oriented JSON stream decoding, the pull-progress
state machine, the content extractor's cleanup-and-cap step, the search
result parser and the `process_query` pipeline are translated from the
source.  External library calls (httpx, readability, BeautifulSoup,
urllib.parse) are abstracted as function parameters or `Option`-valued
inputs (`none` = the call raised / the request failed); `json.loads` is
modelled by an executable decoder `jsonDecode` covering the JSON subset the
Ollama wire protocol uses.
-/

/-- Python `str`, as a sequence of code points. -/
abbrev Str := List Char

/-- Decoded JSON value (the subset of JSON the model server's line protocol
uses: objects, strings, integers, booleans, null; arrays and floats do not
occur in the wire events and are out of scope of the model). -/
inductive Json where
  | null
  | bool (b : Bool)
  | num (n : Int)
  | str (s : Str)
  | obj (members : List (Str × Json))
deriving Repr

/-- Whitespace characters `json.loads` skips between tokens. -/
def jsonWs (c : Char) : Bool :=
  c == ' ' || c == '\t' || c == '\n' || c == '\r'

/-- Drop leading JSON whitespace. -/
def skipWs : Str → Str
  | [] => []
  | c :: cs => if jsonWs c then skipWs cs else c :: cs

/-- Parse the body of a JSON string after the opening quote; returns the
decoded text and the remaining input after the closing quote. -/
def parseStringBody : Str → Option (Str × Str)
  | [] => none
  | '"' :: rest => some ([], rest)
  | '\\' :: c :: rest =>
    (match c with
     | '"' => (parseStringBody rest).map (fun p => ('"' :: p.1, p.2))
     | '\\' => (parseStringBody rest).map (fun p => ('\\' :: p.1, p.2))
     | '/' => (parseStringBody rest).map (fun p => ('/' :: p.1, p.2))
     | 'n' => (parseStringBody rest).map (fun p => ('\n' :: p.1, p.2))
     | 't' => (parseStringBody rest).map (fun p => ('\t' :: p.1, p.2))
     | 'r' => (parseStringBody rest).map (fun p => ('\r' :: p.1, p.2))
     | _ => none)
  | c :: rest => (parseStringBody rest).map (fun p => (c :: p.1, p.2))

/-- Numeric value of a list of decimal digit characters. -/
def digitsToNat (ds : Str) : Nat :=
  ds.foldl (fun acc c => acc * 10 + (c.toNat - 48)) 0

/-- Parse a JSON integer token (optional minus sign, then digits). -/
def parseIntTok (cs : Str) : Option (Int × Str) :=
  match cs with
  | '-' :: rest =>
    let ds := rest.takeWhile Char.isDigit
    if ds.isEmpty then none
    else some (-(digitsToNat ds : Int), rest.dropWhile Char.isDigit)
  | _ =>
    let ds := cs.takeWhile Char.isDigit
    if ds.isEmpty then none
    else some ((digitsToNat ds : Int), cs.dropWhile Char.isDigit)

/-- Parse the members of a JSON object after the opening brace (at least one
member; the empty object is handled by the caller).  `pv` parses one value;
the `Nat` argument is fuel bounding the number of members. -/
def parseMembersF (pv : Str → Option (Json × Str)) : Nat → Str → Option (List (Str × Json) × Str)
  | 0, _ => none
  | fuel + 1, cs =>
    match skipWs cs with
    | '"' :: rest =>
      match parseStringBody rest with
      | none => none
      | some (k, rest1) =>
        match skipWs rest1 with
        | ':' :: rest2 =>
          match pv (skipWs rest2) with
          | none => none
          | some (v, rest3) =>
            match skipWs rest3 with
            | ',' :: rest4 => (parseMembersF pv fuel rest4).map (fun p => ((k, v) :: p.1, p.2))
            | '\x7d' :: rest4 => some ([(k, v)], rest4)
            | _ => none
        | _ => none
    | _ => none

/-- Parse one JSON value; the fuel bounds the nesting depth. -/
def parseVal : Nat → Str → Option (Json × Str)
  | 0, _ => none
  | fuel + 1, cs =>
    match skipWs cs with
    | '"' :: rest => (parseStringBody rest).map (fun p => (Json.str p.1, p.2))
    | '\x7b' :: rest =>
      match skipWs rest with
      | '\x7d' :: rest1 => some (Json.obj [], rest1)
      | _ => (parseMembersF (parseVal fuel) (cs.length + 1) rest).map
               (fun p => (Json.obj p.1, p.2))
    | 't' :: 'r' :: 'u' :: 'e' :: rest => some (Json.bool true, rest)
    | 'f' :: 'a' :: 'l' :: 's' :: 'e' :: rest => some (Json.bool false, rest)
    | 'n' :: 'u' :: 'l' :: 'l' :: rest => some (Json.null, rest)
    | cs1 => (parseIntTok cs1).map (fun p => (Json.num p.1, p.2))

/-- Model of `json.loads` on one line: decode a full JSON value (allowing
surrounding whitespace, rejecting trailing garbage); `none` models
`JSONDecodeError`. -/
def jsonDecode (line : Str) : Option Json :=
  match parseVal (line.length + 1) line with
  | some (v, rest) => if skipWs rest = [] then some v else none
  | none => none

/-- Look a key up in a decoded object.  `json.loads` builds a Python dict,
where a repeated key keeps the last value, hence the reverse scan. -/
def dictFind (kvs : List (Str × Json)) (k : Str) : Option Json :=
  (kvs.reverse.find? (fun kv => kv.1 == k)).map (fun kv => kv.2)

/-- Python `k in data` on a decoded object. -/
def hasKey (kvs : List (Str × Json)) (k : Str) : Bool :=
  (dictFind kvs k).isSome

/-- Python `data[k]` / `data.get(k, default)` on a decoded object. -/
def dictGetD (kvs : List (Str × Json)) (k : Str) (d : Json) : Json :=
  (dictFind kvs k).getD d

/-- Python `data.get(k, "")` when the protocol value is a string.  A present
non-string value would make the Python code raise further on (outside the
server's event vocabulary); modelled as the empty string. -/
def getStrD (kvs : List (Str × Json)) (k : Str) : Str :=
  match dictFind kvs k with
  | some (Json.str s) => s
  | _ => []

/-- Does `s` begin with `pat`?  Models Python `s.startswith(pat)`. -/
def strLeads : Str → Str → Bool
  | [], _ => true
  | _ :: _, [] => false
  | a :: pa, b :: sb => a == b && strLeads pa sb

/-- Python substring containment `needle in hay`. -/
def pySubstrIn (needle : Str) : Str → Bool
  | [] => needle == ([] : Str)
  | c :: t => strLeads needle (c :: t) || pySubstrIn needle t

/-- Characters Python `str.strip()` and `str.splitlines()` treat as
whitespace / line boundaries in the ASCII range. -/
def pyWs (c : Char) : Bool :=
  c == ' ' || c == '\t' || c == '\n' || c == '\r' || c == '\x0b' || c == '\x0c'

/-- Python `str.strip()` restricted to the common whitespace characters. -/
def pyStrip (s : Str) : Str :=
  ((s.dropWhile pyWs).reverse.dropWhile pyWs).reverse

/-- Line-boundary characters of Python `str.splitlines()` (ASCII range). -/
def pyNl (c : Char) : Bool :=
  c == '\n' || c == '\r' || c == '\x0b' || c == '\x0c' ||
    c == '\x1c' || c == '\x1d' || c == '\x1e'

/-- Worker for `pySplitlines`: `cur` holds the current line reversed. -/
def splitlinesGo (cur : Str) : Str → List Str
  | [] => [cur.reverse]
  | '\r' :: '\n' :: rest =>
    if rest.isEmpty then [cur.reverse] else cur.reverse :: splitlinesGo [] rest
  | c :: rest =>
    if pyNl c then
      (if rest.isEmpty then [cur.reverse] else cur.reverse :: splitlinesGo [] rest)
    else splitlinesGo (c :: cur) rest

/-- Python `str.splitlines()`: no trailing empty line for a terminal
newline, and the empty string yields no lines. -/
def pySplitlines (s : Str) : List Str :=
  match s with
  | [] => []
  | _ => splitlinesGo [] s

/-- Python `int(x)` applied to a decoded JSON value: an int is itself, a
bool converts to 0/1, a numeric string parses (surrounding whitespace and a
sign allowed), anything else raises (`none`, caught by the caller's
`except (TypeError, ValueError, ZeroDivisionError)`). -/
def pyIntOfStr (s : Str) : Option Int :=
  match pyStrip s with
  | '-' :: ds =>
    if !ds.isEmpty && ds.all Char.isDigit then some (-(digitsToNat ds : Int)) else none
  | '+' :: ds =>
    if !ds.isEmpty && ds.all Char.isDigit then some ((digitsToNat ds : Int)) else none
  | ds =>
    if !ds.isEmpty && ds.all Char.isDigit then some ((digitsToNat ds : Int)) else none

def pyInt : Json → Option Int
  | Json.num n => some n
  | Json.bool b => some (if b then 1 else 0)
  | Json.str s => pyIntOfStr s
  | _ => none

/-- Constants of `src/main.py`. -/
def MAX_RESULTS : Nat := 5

def MAX_TEXT_PER_PAGE : Nat := 5000

def errorKey : Str := "error".data

def statusKey : Str := "status".data

def digestKey : Str := "digest".data

def totalKey : Str := "total".data

def completedKey : Str := "completed".data

def messageKey : Str := "message".data

def contentKey : Str := "content".data

def pullingTag : Str := "pulling ".data

def uddgMark : Str := "uddg=".data

/-- Content of a chat stream event:
`data.get("message", {}).get("content", "")` (`stream_ollama`, line 211).
An absent key or empty string gives `""`; a non-string `message` or
`content` value is outside the server's event vocabulary (the Python chain
would raise there) and is modelled as `""`. -/
def chatMessageContent (data : Json) : Str :=
  match data with
  | Json.obj kvs =>
    match dictFind kvs messageKey with
    | some (Json.obj mkvs) => getStrD mkvs contentKey
    | _ => []
  | _ => []

/-- The chat stream loop of `stream_ollama` (lines 204–224): for each line
of the response body, skip it if empty, attempt a JSON decode (a failure is
swallowed by `except JSONDecodeError: pass`), and emit the event's message
content when it is non-empty.  The returned list is the ordered sequence of
emitted content fragments. -/
def stream_ollama (decode : Str → Option Json) : List Str → List Str
  | [] => []
  | l :: rest =>
    if l = [] then stream_ollama decode rest
    else
      match decode l with
      | none => stream_ollama decode rest
      | some data =>
        let content := chatMessageContent data
        if content = [] then stream_ollama decode rest
        else content :: stream_ollama decode rest

/-- Mutable state of the `pull_model` loop: the tracked short layer id and
the (vestigial) first-status flag. -/
structure PullState where
  current_layer : Option Str
  first_status : Bool

def initPullState : PullState := { current_layer := none, first_status := true }

/-- Observable outputs of `pull_model`, in print order: a server error
report (terminal), a milestone status line, a layer-start line, a progress
line (which the source renders from `completed` and `total` as a 30-segment
bar, a percentage and MB counts), the final success report, in that order
of appearance in the source. -/
inductive POut where
  | error (v : Json)
  | milestone (s : Str)
  | layerStart (d : Str)
  | progress (completed total : Int)
  | success
deriving Repr

def pullStatusOf (kvs : List (Str × Json)) : Str :=
  getStrD kvs statusKey

/-- Guard of the milestone branch (line 87): non-empty status, not starting
with `"pulling "`, and no `digest` key. -/
def isMilestoneEvent (kvs : List (Str × Json)) : Bool :=
  !(pullStatusOf kvs == ([] : Str)) &&
    !(strLeads pullingTag (pullStatusOf kvs)) &&
    !(hasKey kvs digestKey)

/-- Progress handling of the digest branch (lines 104–119): requires a
`total` key, integer conversions that do not raise, and `total > 0`;
`completed` defaults to `0`.  A conversion failure is swallowed by the
inner `except (TypeError, ValueError, ZeroDivisionError): pass`. -/
def progressOuts (kvs : List (Str × Json)) : List POut :=
  if hasKey kvs totalKey then
    match pyInt (dictGetD kvs totalKey Json.null),
          (if hasKey kvs completedKey then pyInt (dictGetD kvs completedKey Json.null)
           else some 0) with
    | some total, some completed => if 0 < total then [POut.progress completed total] else []
    | _, _ => []
  else []

/-- The pull stream loop of `pull_model` (lines 73–125): skip empty or
undecodable lines; an `error` key terminates with the server message; a
qualifying digest-less status prints a milestone (the source prints it in
both arms of its `first_status` conditional, i.e. on every such event); a
`digest` key tracks the first 12 characters as the current layer, printing
a layer-start exactly when it changes, then progress; normal exhaustion
reports success.  A non-object event makes the Python loop raise out to
the outer handler (no success report); modelled as terminating with no
further output. -/
def pull_model (decode : Str → Option Json) (st : PullState) : List Str → List POut
  | [] => [POut.success]
  | l :: rest =>
    if l = [] then pull_model decode st rest
    else
      match decode l with
      | none => pull_model decode st rest
      | some (Json.obj kvs) =>
        if hasKey kvs errorKey then [POut.error (dictGetD kvs errorKey Json.null)]
        else if isMilestoneEvent kvs then
          POut.milestone (pullStatusOf kvs) ::
            pull_model decode { st with first_status := false } rest
        else if hasKey kvs digestKey then
          let ds := (getStrD kvs digestKey).take 12
          (if st.current_layer = some ds then [] else [POut.layerStart ds]) ++
            progressOuts kvs ++
            pull_model decode { st with current_layer := some ds } rest
        else pull_model decode st rest
      | some _ => []

def isLayerStart : POut → Bool
  | POut.layerStart _ => true
  | _ => false

def isMilestoneOut : POut → Bool
  | POut.milestone _ => true
  | _ => false

def countLayerStarts (outs : List POut) : Nat :=
  outs.countP isLayerStart

def countMilestones (outs : List POut) : Nat :=
  outs.countP isMilestoneOut

/-- The content extractor `extract_main_text` (lines 153–165).  The
readability `Document(html).summary()` call, the BeautifulSoup parse with
the tag-decomposition loop and `get_text(separator=" ")` are external
library steps, abstracted as `summaryText`; the repository code then strips
each line, drops blank lines, joins with single spaces and truncates to
`MAX_TEXT_PER_PAGE`. -/
def extract_main_text (summaryText : Str → Str) (html : Str) : Str :=
  let text := summaryText html
  let lines := ((pySplitlines text).map pyStrip).filter (fun l => l ≠ [])
  let cleaned := List.intercalate [' '] lines
  cleaned.take MAX_TEXT_PER_PAGE

/-- An `<a class="result__a">` anchor inside a result container: its
stripped text and its `href` attribute (`""` when absent, line 142). -/
structure Anchor where
  text : Str
  href : Str
deriving Repr, DecidableEq

/-- A `div.result` container of the provider's HTML response, in document
order; `anchor` is `none` when the container has no result link. -/
structure ResultDiv where
  anchor : Option Anchor
deriving Repr, DecidableEq

structure SearchResult where
  title : Str
  href : Str
deriving Repr, DecidableEq

/-- Build one result record (lines 141–147): the anchor text is the title;
the href passes through the `uddg=` redirect-wrapper extraction
(`parse_qs(urlparse(href).query).get("uddg", [""])[0]`, abstracted as
`uddgParam`) when `"uddg="` occurs in it, else is used verbatim. -/
def mkSearchResult (uddgParam : Str → Str) (a : Anchor) : SearchResult :=
  { title := a.text,
    href := if pySubstrIn uddgMark a.href then uddgParam a.href else a.href }

/-- `search_duckduckgo` (lines 130–151): on any network, HTTP-status or
parse failure (`resp = none`) return the empty list; otherwise take the
first `MAX_RESULTS` result containers in document order, skip those with
no anchor, and build a record from each remaining one. -/
def search_duckduckgo (uddgParam : Str → Str) (resp : Option (List ResultDiv)) :
    List SearchResult :=
  match resp with
  | none => []
  | some divs =>
    (divs.take MAX_RESULTS).filterMap (fun d => d.anchor.map (mkSearchResult uddgParam))

/-- `fetch_page_text` (lines 167–173): `resp = none` models a failed GET
(timeout, DNS, non-2xx via `raise_for_status`, any exception); `extract`
models `extract_main_text` including a possible exception from its library
calls (`none`).  Every failure path returns the empty string via the bare
`except: return ""`. -/
def fetch_page_text (extract : Str → Option Str) (resp : Option Str) : Str :=
  match resp with
  | none => []
  | some body => (extract body).getD []

/-- The excerpt tag of `process_query` (line 261):
`f"Source \x7bi\x7d: \x7btitle\x7d\n\x7burl\x7d\n\n\x7btext\x7d\n\n"`. -/
def excerptTag (i : Nat) (r : SearchResult) (text : Str) : Str :=
  "Source ".data ++ Nat.toDigits 10 i ++ ": ".data ++ r.title ++ "\n".data ++
    r.href ++ "\n\n".data ++ text ++ "\n\n".data

/-- The fetch-and-assemble loop of `process_query` (lines 257–263):
results are numbered by position starting at `i`; a page whose fetched
text is empty contributes no excerpt. -/
def contextParts (fetch : Str → Str) : Nat → List SearchResult → List Str
  | _, [] => []
  | i, r :: rest =>
    let text := fetch r.href
    if text = [] then contextParts fetch (i + 1) rest
    else excerptTag i r text :: contextParts fetch (i + 1) rest

/-- Observable behaviour of one `process_query` call: whether the search
request was issued, the URLs fetched (in order), and the `stream_ollama`
invocation with its `(query, context)` arguments (`none` = not invoked). -/
structure PipelineTrace where
  searchIssued : Bool
  pagesFetched : List Str
  streamCall : Option (Str × Str)
deriving Repr, DecidableEq

/-- `process_query` (lines 238–265): an empty query returns immediately;
otherwise search, then either take the empty context (no results) or fetch
every result page in order and join the tagged excerpts; finally always
invoke `stream_ollama` on `(query, context)`. -/
def process_query (search : Str → List SearchResult) (fetch : Str → Str) (query : Str) :
    PipelineTrace :=
  if query = [] then { searchIssued := false, pagesFetched := [], streamCall := none }
  else
    let results := search query
    if results = [] then
      { searchIssued := true, pagesFetched := [], streamCall := some (query, []) }
    else
      { searchIssued := true,
        pagesFetched := results.map (fun r => r.href),
        streamCall := some (query, (contextParts fetch 1 results).flatten) }

/-- Concrete stream of the testable property behind C1: a malformed line,
a well-formed chat event, an empty line. -/
def chatSampleLines : List Str :=
  ["\x7bbad".data, "\x7b\"message\":\x7b\"content\":\"hi\"\x7d\x7d".data, "".data]

def errLine : Str := "\x7b\"error\":\"model not found\"\x7d".data

def verifyingLine : Str := "\x7b\"status\":\"verifying\"\x7d".data

def pullingManifestLine : Str := "\x7b\"status\":\"pulling manifest\"\x7d".data

def digestLine : Str :=
  "\x7b\"digest\":\"abc123456789def\",\"total\":100,\"completed\":50\x7d".data

def errKvs : List (Str × Json) := [(errorKey, Json.str "model not found".data)]

def verKvs : List (Str × Json) := [(statusKey, Json.str "verifying".data)]

def digestKvs : List (Str × Json) :=
  [(digestKey, Json.str "abc123456789def".data),
   (totalKey, Json.num 100), (completedKey, Json.num 50)]

def emptyStatusLine : Str := "\x7b\"status\":\"\"\x7d".data

def emptyStatusKvs : List (Str × Json) := [(statusKey, Json.str [])]

def pullingManifestKvs : List (Str × Json) :=
  [(statusKey, Json.str "pulling manifest".data)]

def sampleResult : SearchResult := { title := "t1".data, href := "u1".data }

def sampleResult2 : SearchResult := { title := "t2".data, href := "u2".data }

/-- Helper: the progress outputs of an event never contain a layer-start. -/
theorem countLayerStarts_progressOuts (kvs : List (Str × Json)) :
    countLayerStarts (progressOuts kvs) = 0 := by
  unfold countLayerStarts progressOuts
  split
  · split
    · split <;> rfl
    · rfl
  · rfl

/-- Claim C1: in both the chat stream and the pull stream, a line that is
empty or fails JSON decoding is skipped, leaving the processing of all
remaining lines unchanged; on the concrete stream `"\x7bbad"`,
`\x7b"message":\x7b"content":"hi"\x7d\x7d`, `""` the chat streamer emits
exactly the one content fragment `"hi"`. -/
theorem claim_C1_bad_lines_skipped
    (decode : Str → Option Json) (st : PullState) (lines : List Str) (l : Str)
    (h : l = [] ∨ decode l = none) :
    stream_ollama decode (l :: lines) = stream_ollama decode lines ∧
    pull_model decode st (l :: lines) = pull_model decode st lines ∧
    stream_ollama jsonDecode chatSampleLines = ["hi".data] := by
  refine ⟨?_, ?_, by rfl⟩
  · rcases h with h | h
    · subst h; simp [stream_ollama]
    · by_cases hl : l = [] <;> simp [stream_ollama, hl, h]
  · rcases h with h | h
    · subst h; simp [pull_model]
    · by_cases hl : l = [] <;> simp [pull_model, hl, h]

theorem claim_C1_bad_lines_skipped_witness :
    stream_ollama jsonDecode ([] :: chatSampleLines) = stream_ollama jsonDecode chatSampleLines ∧
    pull_model jsonDecode initPullState ([] :: chatSampleLines) =
      pull_model jsonDecode initPullState chatSampleLines ∧
    stream_ollama jsonDecode chatSampleLines = ["hi".data] :=
  claim_C1_bad_lines_skipped jsonDecode initPullState chatSampleLines [] (Or.inl rfl)

/-- Claim C2: a pull event carrying an `error` key terminates the pull at
that event with exactly the server-supplied message: no milestone, layer
or progress handling is applied to that event, no later line of the stream
is processed, and no success report is produced. -/
theorem claim_C2_pull_error_terminates
    (decode : Str → Option Json) (st : PullState) (l : Str)
    (kvs : List (Str × Json)) (rest : List Str)
    (hne : l ≠ []) (hdec : decode l = some (Json.obj kvs))
    (herr : hasKey kvs errorKey = true) :
    pull_model decode st (l :: rest) = [POut.error (dictGetD kvs errorKey Json.null)] := by
  simp [pull_model, hne, hdec, herr]

theorem claim_C2_pull_error_terminates_witness :
    pull_model jsonDecode initPullState (errLine :: [verifyingLine]) =
      [POut.error (Json.str "model not found".data)] :=
  claim_C2_pull_error_terminates jsonDecode initPullState errLine errKvs [verifyingLine]
    (by decide) rfl rfl

/-- Claim C3: for a pull event with a `digest` key (and no `error` key),
the tracked layer identifier is the first 12 characters of the digest, a
layer-start is signalled exactly when that short identifier differs from
the previously tracked one, and two consecutive events with the same
digest signal at most one layer-start. -/
theorem claim_C3_digest_layer_tracking
    (decode : Str → Option Json) (st : PullState) (l : Str)
    (kvs : List (Str × Json)) (rest : List Str)
    (hne : l ≠ []) (hdec : decode l = some (Json.obj kvs))
    (herr : hasKey kvs errorKey = false) (hdig : hasKey kvs digestKey = true) :
    (pull_model decode st (l :: rest) =
      (if st.current_layer = some ((getStrD kvs digestKey).take 12) then []
       else [POut.layerStart ((getStrD kvs digestKey).take 12)]) ++
        progressOuts kvs ++
        pull_model decode { st with current_layer := some ((getStrD kvs digestKey).take 12) } rest) ∧
    countLayerStarts (pull_model decode st [l, l]) ≤ 1 := by
  have hms : isMilestoneEvent kvs = false := by
    simp [isMilestoneEvent, hdig]
  have key : ∀ (s : PullState) (tl : List Str),
      pull_model decode s (l :: tl) =
        (if s.current_layer = some ((getStrD kvs digestKey).take 12) then []
         else [POut.layerStart ((getStrD kvs digestKey).take 12)]) ++
          progressOuts kvs ++
          pull_model decode { s with current_layer := some ((getStrD kvs digestKey).take 12) } tl := by
    intro s tl
    simp [pull_model, hne, hdec, herr, hms, hdig]
  refine ⟨key st rest, ?_⟩
  rw [key st [l], key { st with current_layer := some ((getStrD kvs digestKey).take 12) } []]
  have hp := countLayerStarts_progressOuts kvs
  unfold countLayerStarts at hp ⊢
  simp only [List.countP_append, hp]
  by_cases hcl : st.current_layer = some ((getStrD kvs digestKey).take 12) <;>
    simp [hcl, pull_model, List.countP_cons, isLayerStart]

theorem claim_C3_digest_layer_tracking_witness :
    (pull_model jsonDecode initPullState [digestLine] =
      [POut.layerStart "abc123456789".data, POut.progress 50 100, POut.success]) ∧
    countLayerStarts (pull_model jsonDecode initPullState [digestLine, digestLine]) ≤ 1 :=
  ⟨(claim_C3_digest_layer_tracking jsonDecode initPullState digestLine digestKvs []
      (by decide) rfl rfl rfl).1,
   (claim_C3_digest_layer_tracking jsonDecode initPullState digestLine digestKvs []
      (by decide) rfl rfl rfl).2⟩

/-- Claim C4: the text produced by the content extractor never exceeds the
per-page cap of `MAX_TEXT_PER_PAGE = 5000` characters, whatever the input
HTML and whatever the external readability/BeautifulSoup steps return. -/
theorem claim_C4_excerpt_length_cap (summaryText : Str → Str) (html : Str) :
    (extract_main_text summaryText html).length ≤ MAX_TEXT_PER_PAGE := by
  simp [extract_main_text, List.length_take]

/-- Claim C5: the search client returns at most `MAX_RESULTS = 5` records,
and the returned records are a subsequence (hence in document order) of
the records of all result containers of the response document. -/
theorem claim_C5_search_cap_and_order (uddgParam : Str → Str) (divs : List ResultDiv) :
    (search_duckduckgo uddgParam (some divs)).length ≤ MAX_RESULTS ∧
    List.Sublist (search_duckduckgo uddgParam (some divs))
      (divs.filterMap (fun d => d.anchor.map (mkSearchResult uddgParam))) := by
  constructor
  · calc (search_duckduckgo uddgParam (some divs)).length
        ≤ (divs.take MAX_RESULTS).length :=
          List.length_filterMap_le _ _
      _ ≤ MAX_RESULTS := by simp [List.length_take]
  · exact List.Sublist.filterMap _ (List.take_sublist MAX_RESULTS divs)

/-- Claim C6: for a non-empty query whose search step yields zero results
(and the search client returns the empty list on any failure), the
assembled context is the empty string and `stream_ollama` is still invoked
on it. -/
theorem claim_C6_zero_results_empty_context_still_streams
    (search : Str → List SearchResult) (fetch : Str → Str) (query : Str)
    (uddgParam : Str → Str)
    (hq : query ≠ []) (hz : search query = []) :
    (process_query search fetch query).streamCall = some (query, []) ∧
    search_duckduckgo uddgParam none = [] := by
  refine ⟨?_, rfl⟩
  simp [process_query, hq, hz]

theorem claim_C6_zero_results_empty_context_still_streams_witness :
    (process_query (fun _ => []) (fun _ => []) "q".data).streamCall = some ("q".data, []) ∧
    search_duckduckgo (fun h => h) none = [] :=
  claim_C6_zero_results_empty_context_still_streams (fun _ => []) (fun _ => [])
    "q".data (fun h => h) (by decide) rfl

/-- Claim C7: a page fetch that fails for any reason (failed request, or
an exception raised during extraction) returns the empty string, and a
page whose text is empty contributes no excerpt while the remaining
results are assembled unaffected, keeping their source numbers. -/
theorem claim_C7_page_failure_is_local
    (extract : Str → Option Str) (fetch : Str → Str) (i : Nat)
    (r : SearchResult) (rest : List SearchResult)
    (hf : fetch r.href = []) :
    fetch_page_text extract none = [] ∧
    (∀ body, extract body = none → fetch_page_text extract (some body) = []) ∧
    contextParts fetch i (r :: rest) = contextParts fetch (i + 1) rest := by
  refine ⟨rfl, ?_, ?_⟩
  · intro body hb
    simp [fetch_page_text, hb]
  · simp [contextParts, hf]

theorem claim_C7_page_failure_is_local_witness :
    fetch_page_text (fun _ => none) (some "x".data) = [] ∧
    contextParts (fun _ => []) 1 [sampleResult, sampleResult2] =
      contextParts (fun _ => []) 2 [sampleResult2] :=
  ⟨(claim_C7_page_failure_is_local (fun _ => none) (fun _ => []) 1 sampleResult
      [sampleResult2] rfl).2.1 "x".data rfl,
   (claim_C7_page_failure_is_local (fun _ => none) (fun _ => []) 1 sampleResult
      [sampleResult2] rfl).2.2⟩

/-- Claim C9, counterexample: the code surfaces a qualifying digest-less
status on every event, not once per change — two consecutive
`\x7b"status":"verifying"\x7d` events produce two milestones — and a
digest-less status starting with `"pulling "` is never surfaced at all. -/
theorem claim_C9_milestone_counterexample :
    pull_model jsonDecode initPullState [pullingManifestLine, verifyingLine, verifyingLine] =
      [POut.milestone "verifying".data, POut.milestone "verifying".data, POut.success] ∧
    countMilestones (pull_model jsonDecode initPullState [verifyingLine, verifyingLine]) = 2 :=
  ⟨rfl, rfl⟩

/-- Claim C9, amended: for a pull event with no `error` key, if its
`status` is non-empty, does not start with `"pulling "` and it has no
`digest` key, it is surfaced as a milestone on every occurrence — in
particular consecutive events with the same digest-less status each
produce their own milestone; and if instead its digest-less status is
empty or starts with `"pulling "`, the event is never surfaced: it
produces no output at all. -/
theorem claim_C9_milestone_every_event
    (decode : Str → Option Json) (st : PullState) (l : Str)
    (kvs : List (Str × Json)) (rest : List Str)
    (hne : l ≠ []) (hdec : decode l = some (Json.obj kvs))
    (herr : hasKey kvs errorKey = false) :
    (isMilestoneEvent kvs = true →
      pull_model decode st (l :: rest) =
        POut.milestone (pullStatusOf kvs) ::
          pull_model decode { st with first_status := false } rest) ∧
    ((pullStatusOf kvs = [] ∨ strLeads pullingTag (pullStatusOf kvs) = true) →
      hasKey kvs digestKey = false →
      pull_model decode st (l :: rest) = pull_model decode st rest) := by
  constructor
  · intro hms
    simp [pull_model, hne, hdec, herr, hms]
  · intro hs hdig
    have hms : isMilestoneEvent kvs = false := by
      rcases hs with h | h <;> simp [isMilestoneEvent, h]
    simp [pull_model, hne, hdec, herr, hms, hdig]

theorem claim_C9_milestone_every_event_witness :
    (pull_model jsonDecode initPullState (verifyingLine :: [verifyingLine]) =
      POut.milestone "verifying".data ::
        pull_model jsonDecode { initPullState with first_status := false } [verifyingLine]) ∧
    (pull_model jsonDecode initPullState (emptyStatusLine :: [verifyingLine]) =
      pull_model jsonDecode initPullState [verifyingLine]) ∧
    (pull_model jsonDecode initPullState (pullingManifestLine :: [verifyingLine]) =
      pull_model jsonDecode initPullState [verifyingLine]) :=
  ⟨(claim_C9_milestone_every_event jsonDecode initPullState verifyingLine verKvs
      [verifyingLine] (by decide) rfl rfl).1 rfl,
   (claim_C9_milestone_every_event jsonDecode initPullState emptyStatusLine emptyStatusKvs
      [verifyingLine] (by decide) rfl rfl).2 (Or.inl rfl) rfl,
   (claim_C9_milestone_every_event jsonDecode initPullState pullingManifestLine
      pullingManifestKvs [verifyingLine] (by decide) rfl rfl).2 (Or.inr rfl) rfl⟩

/-- Claim C10: for the empty query string, `process_query` returns
immediately: no search request is issued, no page is fetched, and
`stream_ollama` is not invoked. -/
theorem claim_C10_empty_query_returns
    (search : Str → List SearchResult) (fetch : Str → Str) :
    process_query search fetch [] =
      { searchIssued := false, pagesFetched := [], streamCall := none } :=
  rfl
